import Mathlib

/-!
Shallow embedding of the Kleinanzeiger content pipeline:
the pydantic models (src/vision/models.py), the content generator
(src/content/generator.py) and the category mapper
(src/content/categories.py), together with theorems settling the
frozen claims about them.

Strings are Lean strings (sequences of Unicode code points, matching
Python string semantics for length, slicing and substring search).
Prices are rationals: the Python code only selects and compares float
values, it never does arithmetic on them, so rationals are a faithful
carrier.
-/

/-- Occurrence of the list "needle" as a contiguous run inside "hay".
Models the Python substring operator "needle in hay" on the character
level. The empty needle occurs in every hay, as in Python. -/
def seqContains (needle : List Char) : List Char → Bool
  | [] => needle.isEmpty
  | c :: rest => needle.isPrefixOf (c :: rest) || seqContains needle rest

/-- Models the Python expression "needle in hay" for strings. -/
def pyIn (needle hay : String) : Bool :=
  seqContains needle.toList hay.toList

/-- Models the Python call s.lower(): lowers every character. The Lean
character lowering folds ASCII letters, which is what every concrete
taxonomy and text in this development uses; it is the charwise version
of the library string lowering, written on the character list so that
it reduces inside the kernel. -/
def pyLower (s : String) : String :=
  String.mk (s.toList.map Char.toLower)

/-- Models the Python predicate "c is a digit character" used by
str.isdigit. Python accepts every Unicode character of numeric type
Digit, not only ASCII 0-9; this model covers ASCII 0-9 together with
the principal non-ASCII digit code points (superscript and subscript
digits and the Arabic-Indic, extended Arabic-Indic, Devanagari and
fullwidth decimal ranges). Every character listed here is accepted by
the Python predicate. -/
def pyCharIsDigit (c : Char) : Bool :=
  ('0' ≤ c && c ≤ '9') ||
  (c = '²' || c = '³' || c = '¹') ||
  ('٠' ≤ c && c ≤ '٩') ||
  ('۰' ≤ c && c ≤ '۹') ||
  ('०' ≤ c && c ≤ '९') ||
  (c = '⁰' || ('⁴' ≤ c && c ≤ '⁹')) ||
  ('₀' ≤ c && c ≤ '₉') ||
  ('０' ≤ c && c ≤ '９')

/-- Models the Python call s.isdigit(): true iff s is nonempty and
every character is a Unicode digit. -/
def pyIsdigit (s : String) : Bool :=
  !s.isEmpty && s.toList.all pyCharIsDigit

/-- Takes the first n characters of a string; models the Python
slice s[:n]. -/
def strTake (s : String) (n : Nat) : String :=
  ⟨s.toList.take n⟩

/-- ProductInfo from src/vision/models.py: the attributes extracted from
product images. Optional fields are explicit options, as in the
pydantic model. -/
structure ProductInfo where
  name : String
  description : String
  condition : String := "Gebraucht"
  category : Option String := none
  subcategory : Option String := none
  suggested_price : Option ℚ := none
  brand : Option String := none
  color : Option String := none
  features : List String := []
  image_paths : List String := []
deriving Repr, DecidableEq

/-- The validator validate_price of ProductInfo: a present negative
suggested price is rejected, everything else passes. -/
def ProductInfo.validate (p : ProductInfo) : Except String ProductInfo :=
  match p.suggested_price with
  | some v => if v < 0 then .error "Price must be positive" else .ok p
  | none => .ok p

/-- AdContent from src/vision/models.py: the generated ad record. -/
structure AdContent where
  title : String
  description : String
  price : ℚ
  category : String
  subcategory : Option String := none
  condition : String := "Gebraucht"
  shipping_type : String := "PICKUP"
  postal_code : String
deriving Repr, DecidableEq

/-- Validated construction of AdContent, embedding the pydantic field
constraints and validators of the model: the title length cap of 65
(Field max_length and validate_title_length), the nonnegative price
(Field ge 0) and the postal code check of validate_postal_code, which
is the Python test "not v.isdigit() or len(v) != 5". All other fields
carry no constraint in the source. -/
def AdContent.mk? (title description : String) (price : ℚ) (category : String)
    (subcategory : Option String) (condition shipping_type postal_code : String) :
    Except String AdContent :=
  if 65 < title.length then .error "Title too long"
  else if price < 0 then .error "Input should be greater than or equal to 0"
  else if !(pyIsdigit postal_code) || postal_code.length ≠ 5 then
    .error "Postal code must be 5 digits"
  else .ok { title := title, description := description, price := price,
             category := category, subcategory := subcategory,
             condition := condition, shipping_type := shipping_type,
             postal_code := postal_code }

/-- A Python-truthy optional string field contributes one element, an
absent or empty one contributes nothing; models the guards of the form
"if product_info.brand:" in the generator. -/
def optComponent : Option String → List String
  | none => []
  | some s => if s.isEmpty then [] else [s]

/-- An optional detail line with its label, present only when the field
is Python-truthy. -/
def optDetail (label : String) : Option String → List String
  | none => []
  | some s => if s.isEmpty then [] else [label ++ s]

/-- The components of the synthesized title in the method
ContentGenerator._generate_title: brand when truthy, then the name,
then the color when truthy. -/
def titleComponents (p : ProductInfo) : List String :=
  optComponent p.brand ++ [p.name] ++ optComponent p.color

/-- The naive space-separated join of the title components, before any
truncation. -/
def naiveTitle (p : ProductInfo) : String :=
  String.intercalate " " (titleComponents p)

/-- The method ContentGenerator._generate_title: join the components
with single spaces; when the result exceeds 65 characters, keep the
first 62 and append the three-character ellipsis marker. -/
def generate_title (p : ProductInfo) : String :=
  let title := naiveTitle p
  if 65 < title.length then strTake title 62 ++ "..." else title

/-- The method ContentGenerator._simple_description: the template-based
description assembled from the original description (or a sale line),
a details block and a features block. -/
def simple_description (p : ProductInfo) : String :=
  let parts0 := if !p.description.isEmpty then [p.description]
                else ["Zum Verkauf: " ++ p.name]
  let details := optDetail "Marke: " p.brand ++ optDetail "Farbe: " p.color ++
                 ["Zustand: " ++ p.condition]
  let parts1 := parts0 ++ ["\n\n" ++ String.intercalate "\n" details]
  let parts2 := if p.features.isEmpty then parts1
                else parts1 ++ ["\n\nMerkmale:"] ++ p.features.map (fun f => "- " ++ f)
  String.intercalate "\n" parts2

/-- The method ContentGenerator._format_description_from_features: the
ad description built from the vision description, the feature bullets,
brand and color lines and the fixed pickup notice. -/
def format_description_from_features (p : ProductInfo) : String :=
  let parts := [p.description]
  let parts := if p.features.isEmpty then parts
               else parts ++ ["\nMerkmale:"] ++ p.features.map (fun f => "• " ++ f)
  let parts := parts ++ optDetail "\nMarke: " p.brand
  let parts := parts ++ optDetail "Farbe: " p.color
  let parts := parts ++ ["\nNur Abholung möglich."]
  String.intercalate "\n" parts

/-- The method ContentGenerator._enhance_description. The single call
into the configured AI backend is abstracted as its outcome: an
exceptional result stands for any raised error (network, malformed
response, credentials). For the simple backend the template is used
directly; for the AI backends a successful response is stripped and
returned, and any error is caught and replaced by the template output;
an unrecognized backend also falls back to the template. -/
def enhance_description (backend : String) (backendResult : Except String String)
    (p : ProductInfo) : String :=
  if backend = "simple" then simple_description p
  else if backend = "claude" || backend = "gemini" || backend = "openai" then
    match backendResult with
    | .ok text => text.trim
    | .error _ => simple_description p
  else simple_description p

/-- The method ContentGenerator.generate_ad_content: title is the
vision name cut to 65 characters, the description is the formatted
feature description, the price is the Python expression
"price_override if price_override is not None else
(product_info.suggested_price or 10.0)" (so a present suggested price
of 0 is falsy and yields 10.0), the category is the Python expression
"category or product_info.category or Sonstiges" (so the argument wins
when nonempty), and the record is built through the validating
constructor. -/
def generate_ad_content (p : ProductInfo) (postal_code category : String)
    (subcategory : Option String) (price_override : Option ℚ) :
    Except String AdContent :=
  let title := strTake p.name 65
  let description := format_description_from_features p
  let price : ℚ := match price_override with
    | some v => v
    | none => match p.suggested_price with
      | some sp => if sp = 0 then 10 else sp
      | none => 10
  let final_category := if !category.isEmpty then category
    else match p.category with
      | some c => if !c.isEmpty then c else "Sonstiges"
      | none => "Sonstiges"
  AdContent.mk? title description price final_category subcategory
    p.condition "PICKUP" postal_code

/-- The taxonomy data held by a CategoryMapper, as loaded from the
categories file: the categories section (category name to subcategories,
each with its example items) and the keywords section (category name to
keyword list), both in file order. -/
structure CategoryMapperData where
  categories : List (String × List (String × List String))
  keywords : List (String × List String)
deriving Repr, DecidableEq

/-- The category names of the taxonomy in iteration order. -/
def catNames (cm : CategoryMapperData) : List String :=
  cm.categories.map (fun x => x.1)

/-- The category names of the keywords section in iteration order. -/
def kwNames (cm : CategoryMapperData) : List String :=
  cm.keywords.map (fun x => x.1)

/-- The per-category keyword count of CategoryMapper._match_keywords:
how many keywords of the list occur, verbatim, as substrings of the
lowercased text. -/
def countMatches (keywords : List String) (textLower : String) : Nat :=
  (keywords.filter (fun k => pyIn k textLower)).length

/-- The accumulator loop of CategoryMapper._match_keywords: a category
replaces the current best only with a strictly greater match count. -/
def matchKeywordsAux (textLower : String) :
    List (String × List String) → Option String → Nat → Option String × Nat
  | [], best, maxM => (best, maxM)
  | (cat, kws) :: rest, best, maxM =>
    let m := countMatches kws textLower
    if maxM < m then matchKeywordsAux textLower rest (some cat) m
    else matchKeywordsAux textLower rest best maxM

/-- The method CategoryMapper._match_keywords: the best-scoring category
of the keywords table, or none when no keyword matched at all. -/
def matchKeywords (kwTable : List (String × List String)) (text : String) :
    Option String :=
  let r := matchKeywordsAux (pyLower text) kwTable none 0
  if 0 < r.2 then r.1 else none

/-- The hint test of CategoryMapper.map_category: the lowercased
category name occurs in the lowercased hint or conversely. -/
def hintPred (h : String) (cat : String) : Bool :=
  pyIn (pyLower cat) (pyLower h) || pyIn (pyLower h) (pyLower cat)

/-- The hint loop of CategoryMapper.map_category: the first taxonomy
category name matching the hint, in taxonomy iteration order. -/
def hintMatch (names : List String) (h : String) : Option String :=
  names.find? (hintPred h)

/-- The method CategoryMapper._find_subcategory: inside the chosen
category, the first subcategory whose name or whose any item occurs in
the lowercased text; otherwise the first subcategory; none when the
category is unknown or has no subcategories. -/
def find_subcategory (cm : CategoryMapperData) (category : String) (text : String) :
    Option String :=
  match cm.categories.find? (fun x => x.1 == category) with
  | none => none
  | some found =>
    let textLower := pyLower text
    match found.2.find? (fun sc =>
        pyIn (pyLower sc.1) textLower ||
        sc.2.any (fun item => pyIn (pyLower item) textLower)) with
    | some sc => some sc.1
    | none => found.2.head?.map (fun sc => sc.1)

/-- The method CategoryMapper.map_category. The hint branch runs only
for a Python-truthy hint (a present, nonempty string); an empty result
of either branch is Python-falsy and falls through, ending at the
sentinel Sonstiges. -/
def map_category (cm : CategoryMapperData) (product_name product_description : String)
    (detected_category : Option String) : String × Option String :=
  let combined := product_name ++ " " ++ product_description
  let c1 : Option String := match detected_category with
    | none => none
    | some h => if h.isEmpty then none else hintMatch (catNames cm) h
  let c2 : Option String := match c1 with
    | some c => if c.isEmpty then matchKeywords cm.keywords combined else some c
    | none => matchKeywords cm.keywords combined
  let category : String := match c2 with
    | some c => if c.isEmpty then "Sonstiges" else c
    | none => "Sonstiges"
  (category, find_subcategory cm category combined)

/-- From the words of the spec: a string of exactly 5 ASCII digits. -/
def fiveAsciiDigits (s : String) : Bool :=
  s.length = 5 && s.toList.all (fun c => '0' ≤ c && c ≤ '9')

/-- From the words of the spec: the needle occurs in the hay as a
case-insensitive substring. -/
def ciSubstr (needle hay : String) : Bool :=
  pyIn (pyLower needle) (pyLower hay)

/-! Helper lemmas about the embedded definitions. -/

/-- An exceptional result is not ok. -/
theorem exceptIsOk_error {ε α : Type} (e : ε) :
    (Except.error e : Except ε α).isOk = false := rfl

/-- A successful result is ok. -/
theorem exceptIsOk_ok {ε α : Type} (a : α) :
    (Except.ok a : Except ε α).isOk = true := rfl

/-- Successful AdContent construction is equivalent to the three
validated constraints: the title cap, the nonnegative price and the
postal code check. -/
theorem AdContent.mk?_isOk (title description : String) (price : ℚ) (category : String)
    (subcategory : Option String) (condition shipping postal_code : String) :
    (AdContent.mk? title description price category subcategory condition shipping
        postal_code).isOk = true ↔
      (title.length ≤ 65 ∧ 0 ≤ price ∧ pyIsdigit postal_code = true ∧
        postal_code.length = 5) := by
  unfold AdContent.mk?
  by_cases h1 : 65 < title.length
  · rw [if_pos h1, exceptIsOk_error]
    constructor
    · intro h
      simp at h
    · rintro ⟨ha, -⟩
      exact absurd ha (by omega)
  · rw [if_neg h1]
    by_cases h2 : price < 0
    · rw [if_pos h2, exceptIsOk_error]
      constructor
      · intro h
        simp at h
      · rintro ⟨-, hb, -⟩
        exact absurd h2 (not_lt.mpr hb)
    · rw [if_neg h2]
      by_cases h3 : pyIsdigit postal_code = true
      · by_cases h4 : postal_code.length = 5
        · rw [if_neg (by simp [h3, h4]), exceptIsOk_ok]
          constructor
          · intro _
            exact ⟨by omega, not_lt.mp h2, h3, h4⟩
          · intro _
            rfl
        · rw [if_pos (by simp [h3, h4]), exceptIsOk_error]
          constructor
          · intro h
            simp at h
          · rintro ⟨-, -, -, hc⟩
            exact absurd hc h4
      · rw [if_pos (by simp [h3]), exceptIsOk_error]
        constructor
        · intro h
          simp at h
        · rintro ⟨-, -, hc, -⟩
          exact absurd hc h3

/-- A successfully constructed AdContent carries exactly the fields it
was given. -/
theorem AdContent.mk?_eq_ok (title description : String) (price : ℚ) (category : String)
    (subcategory : Option String) (condition shipping postal_code : String) (r : AdContent)
    (h : AdContent.mk? title description price category subcategory condition shipping
        postal_code = .ok r) :
    r.title = title ∧ r.description = description ∧ r.price = price ∧
      r.category = category := by
  unfold AdContent.mk? at h
  split at h
  · cases h
  · split at h
    · cases h
    · split at h
      · cases h
      · cases h
        exact ⟨rfl, rfl, rfl, rfl⟩

/-! Claims about AdContent validation. -/

/-- C1 counterexample: the postal code string 1234² does not consist of
five ASCII digits, yet AdContent construction succeeds, because the
Python isdigit test also accepts non-ASCII Unicode digits such as the
superscript two. -/
theorem C1_counterexample :
    fiveAsciiDigits "1234²" = false ∧
    (AdContent.mk? "Titel" "Text" 10 "Elektronik" none "Gebraucht" "PICKUP"
        "1234²").isOk = true := by
  constructor
  · rfl
  · rfl

/-- C1 amended: with the other fields valid, AdContent construction
succeeds exactly when the postal code has length 5 and passes the
Python isdigit test, which accepts every Unicode digit character; all
strings of five ASCII digits succeed, but so do certain strings that
are not ASCII digits. -/
theorem C1_postal_code_validation (title description : String) (price : ℚ)
    (category : String) (subcategory : Option String) (condition shipping : String)
    (ht : title.length ≤ 65) (hp : 0 ≤ price) (postal_code : String) :
    (AdContent.mk? title description price category subcategory condition shipping
        postal_code).isOk = true ↔
      (pyIsdigit postal_code = true ∧ postal_code.length = 5) := by
  rw [AdContent.mk?_isOk]
  constructor
  · rintro ⟨-, -, ha, hb⟩
    exact ⟨ha, hb⟩
  · rintro ⟨ha, hb⟩
    exact ⟨ht, hp, ha, hb⟩

/-- C1 witness: the amended rule applied at a concrete valid input. -/
theorem C1_postal_code_validation_witness :
    (AdContent.mk? "Titel" "Text" 10 "Elektronik" none "Gebraucht" "PICKUP"
        "10115").isOk = true :=
  (C1_postal_code_validation "Titel" "Text" 10 "Elektronik" none "Gebraucht" "PICKUP"
    (by decide) (by norm_num) "10115").mpr (by decide)

/-- C8: with the other fields valid, AdContent construction succeeds
exactly when the title is at most 65 characters long; any longer title
is rejected. -/
theorem C8_title_length_validation (title description : String) (price : ℚ)
    (category : String) (subcategory : Option String) (condition shipping : String)
    (postal_code : String) (hp : 0 ≤ price) (hd : pyIsdigit postal_code = true)
    (hl : postal_code.length = 5) :
    (AdContent.mk? title description price category subcategory condition shipping
        postal_code).isOk = true ↔ title.length ≤ 65 := by
  rw [AdContent.mk?_isOk]
  constructor
  · rintro ⟨ha, -⟩
    exact ha
  · intro ha
    exact ⟨ha, hp, hd, hl⟩

/-- C8 witness: the rule applied at a concrete input with a short
title. -/
theorem C8_title_length_validation_witness :
    (AdContent.mk? "Gaming Laptop" "Text" 600 "Elektronik" none "Gebraucht" "PICKUP"
        "10115").isOk = true :=
  (C8_title_length_validation "Gaming Laptop" "Text" 600 "Elektronik" none "Gebraucht"
    "PICKUP" "10115" (by norm_num) (by decide) (by decide)).mpr (by decide)

/-- C9 counterexample: constructing an AdContent with an empty category
string succeeds, contrary to the claim that it fails validation; the
model declares the field as required but attaches no nonemptiness
constraint. -/
theorem C9_counterexample :
    (AdContent.mk? "Titel" "Text" 10 "" none "Gebraucht" "PICKUP" "12345").isOk
      = true := by
  rfl

/-- C9 amended: the category value is not validated at all: with the
other fields valid, construction succeeds for every category string,
including the empty one. -/
theorem C9_category_not_validated (title description : String) (price : ℚ)
    (subcategory : Option String) (condition shipping postal_code : String)
    (ht : title.length ≤ 65) (hp : 0 ≤ price) (hd : pyIsdigit postal_code = true)
    (hl : postal_code.length = 5) :
    ∀ category : String,
      (AdContent.mk? title description price category subcategory condition shipping
          postal_code).isOk = true := by
  intro category
  rw [AdContent.mk?_isOk]
  exact ⟨ht, hp, hd, hl⟩

/-- C9 witness: the amended rule applied at the empty category. -/
theorem C9_category_not_validated_witness :
    (AdContent.mk? "Anderer Titel" "Text" 10 "" none "Gebraucht" "PICKUP"
        "12345").isOk = true :=
  C9_category_not_validated "Anderer Titel" "Text" 10 none "Gebraucht" "PICKUP"
    "12345" (by decide) (by norm_num) (by decide) (by decide) ""

/-! Claims about the content generator. -/

/-- C2: description enhancement never fails the pipeline. For every AI
backend an erroring backend call is caught inside the enhancement step
and replaced by the template description, and every record returned by
generate_ad_content carries the template-formatted description. -/
theorem C2_enhancement_never_fails :
    (∀ backend e p,
      (backend = "claude" ∨ backend = "gemini" ∨ backend = "openai") →
      enhance_description backend (Except.error e) p = simple_description p) ∧
    (∀ p postal_code category subcategory price_override r,
      generate_ad_content p postal_code category subcategory price_override =
        Except.ok r →
      r.description = format_description_from_features p) := by
  constructor
  · rintro backend e p (rfl | rfl | rfl) <;> rfl
  · intro p postal_code category subcategory price_override r h
    simp only [generate_ad_content] at h
    exact (AdContent.mk?_eq_ok _ _ _ _ _ _ _ _ _ h).2.1

/-- A concrete product for the C2 witness. -/
def pC2W : ProductInfo := { name := "Lampe", description := "Eine Lampe" }

/-- The record produced by generate_ad_content on the C2 witness
input. -/
def rC2W : AdContent :=
  { title := strTake pC2W.name 65,
    description := format_description_from_features pC2W,
    price := 10, category := "Elektronik", subcategory := none,
    condition := "Gebraucht", shipping_type := "PICKUP", postal_code := "10115" }

/-- C2 witness: the fallback guarantee applied at a concrete backend
error and a concrete generated record. -/
theorem C2_enhancement_never_fails_witness :
    enhance_description "gemini" (Except.error "boom") pC2W = simple_description pC2W ∧
    rC2W.description = format_description_from_features pC2W := by
  constructor
  · exact C2_enhancement_never_fails.1 "gemini" "boom" pC2W (Or.inr (Or.inl rfl))
  · exact C2_enhancement_never_fails.2 pC2W "10115" "Elektronik" none none rC2W rfl

/-- A concrete product with a present suggested price of zero for the
C3 counterexample. -/
def pC3 : ProductInfo :=
  { name := "Stuhl", description := "Ein Stuhl", suggested_price := some 0 }

/-- C3 counterexample: with no override and a present suggested price
of 0, the generated price is the default 10 rather than the suggested
price, because the Python expression treats the float 0.0 as falsy. -/
theorem C3_counterexample :
    pC3.suggested_price = some 0 ∧
    (generate_ad_content pC3 "12345" "Elektronik" none none).toOption.map
        AdContent.price = some 10 ∧
    (10 : ℚ) ≠ 0 := by
  refine ⟨rfl, rfl, by norm_num⟩

/-- C3 amended: the price of a generated record is the override when
provided; otherwise the suggested price when present and nonzero;
otherwise the default 10, which is also taken when a present suggested
price equals zero. -/
theorem C3_price_resolution (p : ProductInfo) (postal_code category : String)
    (subcategory : Option String) (price_override : Option ℚ) (r : AdContent)
    (h : generate_ad_content p postal_code category subcategory price_override =
      Except.ok r) :
    (∀ v, price_override = some v → r.price = v) ∧
    (price_override = none →
      ∀ sp, p.suggested_price = some sp → sp ≠ 0 → r.price = sp) ∧
    (price_override = none →
      (p.suggested_price = none ∨ p.suggested_price = some 0) → r.price = 10) := by
  simp only [generate_ad_content] at h
  have hpr := (AdContent.mk?_eq_ok _ _ _ _ _ _ _ _ _ h).2.2.1
  refine ⟨?_, ?_, ?_⟩
  · rintro v rfl
    simpa using hpr
  · rintro rfl sp hsp hne
    rw [hpr, hsp]
    simp [hne]
  · rintro rfl (hc | hc)
    · rw [hpr, hc]
    · rw [hpr, hc]
      simp

/-- A concrete product for the C3 witness. -/
def pC3W : ProductInfo :=
  { name := "Stuhl", description := "Ein Stuhl aus Holz", suggested_price := some 50 }

/-- The record produced by generate_ad_content on the C3 witness input
with an explicit override of 150. -/
def rC3W : AdContent :=
  { title := strTake pC3W.name 65,
    description := format_description_from_features pC3W,
    price := 150, category := "Möbel & Wohnen", subcategory := none,
    condition := "Gebraucht", shipping_type := "PICKUP", postal_code := "10115" }

/-- C3 witness: the override 150 wins over the suggested price 50. -/
theorem C3_price_resolution_witness : rC3W.price = 150 :=
  (C3_price_resolution pC3W "10115" "Möbel & Wohnen" none (some 150) rC3W rfl).1
    150 rfl

/-- A concrete product carrying a vision category for the C4 failing
input. -/
def pC4 : ProductInfo :=
  { name := "Ball", description := "Ein Ball", category := some "Spielzeug" }

/-- C4 evaluation at the failing input: the vision analysis detected
the category Spielzeug and the mapper argument is Elektronik; the code
returns the mapper argument, while the claim, the specification and
the inline comment above the assignment say the vision category is
preferred. -/
theorem C4_code_behavior :
    pC4.category = some "Spielzeug" ∧
    (generate_ad_content pC4 "12345" "Elektronik" none none).toOption.map
        AdContent.category = some "Elektronik" ∧
    ("Elektronik" : String) ≠ "Spielzeug" := by
  refine ⟨rfl, rfl, by decide⟩

/-- The character list of an appended string is the appended character
lists. -/
theorem strToList_append (s t : String) : (s ++ t).toList = s.toList ++ t.toList := by
  cases s
  cases t
  rfl

/-- The character list of a truncated string is the truncated character
list. -/
theorem strTake_toList (s : String) (n : Nat) :
    (strTake s n).toList = s.toList.take n := rfl

/-- String length is the length of the character list. -/
theorem strLength_toList (s : String) : s.length = s.toList.length := rfl

/-- C7: when the joined title components exceed 65 characters, the
synthesized title is exactly 65 characters, ends with the ellipsis
marker, and its first 62 characters are a prefix of the naive join;
when the join fits, the title is the join; the 65-character cap holds
in every case. -/
theorem C7_title_truncation (p : ProductInfo) :
    (65 < (naiveTitle p).length →
      (generate_title p).length = 65 ∧
      "...".toList <:+ (generate_title p).toList ∧
      (generate_title p).toList.take 62 <+: (naiveTitle p).toList) ∧
    ((naiveTitle p).length ≤ 65 → generate_title p = naiveTitle p) ∧
    (generate_title p).length ≤ 65 := by
  by_cases h : 65 < (naiveTitle p).length
  · have hgen : generate_title p = strTake (naiveTitle p) 62 ++ "..." := by
      simp only [generate_title]
      rw [if_pos h]
    have hlist : (generate_title p).toList =
        (naiveTitle p).toList.take 62 ++ "...".toList := by
      rw [hgen, strToList_append, strTake_toList]
    have h62 : ((naiveTitle p).toList.take 62).length = 62 := by
      rw [List.length_take]
      have hlen : 62 ≤ (naiveTitle p).toList.length := by
        rw [← strLength_toList]
        omega
      exact inf_eq_left.mpr hlen
    have hlen65 : (generate_title p).length = 65 := by
      rw [strLength_toList, hlist, List.length_append, h62]
      rfl
    refine ⟨fun _ => ⟨hlen65, ?_, ?_⟩, fun hc => absurd h (by omega), by omega⟩
    · rw [hlist]
      exact List.suffix_append _ _
    · have htake : (generate_title p).toList.take 62 =
          (naiveTitle p).toList.take 62 := by
        rw [hlist, List.take_append_eq_append_take, h62, Nat.sub_self,
          List.take_zero, List.append_nil, List.take_take, min_self]
      rw [htake]
      exact List.take_prefix 62 _
  · have hgen : generate_title p = naiveTitle p := by
      simp only [generate_title]
      rw [if_neg h]
    refine ⟨fun hc => absurd hc h, fun _ => hgen, ?_⟩
    rw [hgen]
    omega

/-- A concrete product whose joined title components exceed 65
characters, for the C7 witness. -/
def pC7W : ProductInfo :=
  { name := String.mk (List.replicate 70 'a'), description := "Text",
    brand := some "Dell" }

/-- C7 witness: the truncation rule applied at a concrete over-long
join. -/
theorem C7_title_truncation_witness :
    65 < (naiveTitle pC7W).length ∧ (generate_title pC7W).length = 65 ∧
    "...".toList <:+ (generate_title pC7W).toList :=
  ⟨by decide, ((C7_title_truncation pC7W).1 (by decide)).1,
    ((C7_title_truncation pC7W).1 (by decide)).2.1⟩

/-! Lemmas about the keyword scoring loop and the category mapper. -/

/-- A string that is not the empty string is not empty. -/
theorem strIsEmpty_false (s : String) (h : s ≠ "") : s.isEmpty = false := by
  cases hb : s.isEmpty
  · rfl
  · exact absurd ((String.isEmpty_iff s).mp hb) h

/-- The best match returned by the scoring loop is either the incoming
best or one of the scanned category names. -/
theorem matchKeywordsAux_fst_mem (tl : String) :
    ∀ (l : List (String × List String)) (best : Option String) (m : Nat) (c : String),
      (matchKeywordsAux tl l best m).1 = some c →
      best = some c ∨ c ∈ l.map (fun x => x.1) := by
  intro l
  induction l with
  | nil =>
    intro best m c h
    left
    simpa [matchKeywordsAux] using h
  | cons hd rest ih =>
    intro best m c h
    obtain ⟨cat, kws⟩ := hd
    simp only [matchKeywordsAux] at h
    by_cases hc : m < countMatches kws tl
    · rw [if_pos hc] at h
      rcases ih _ _ _ h with h1 | h1
      · right
        simp only [Option.some.injEq] at h1
        simp [h1]
      · right
        simp [h1]
    · rw [if_neg hc] at h
      rcases ih _ _ _ h with h1 | h1
      · left
        exact h1
      · right
        simp [h1]

/-- A category returned by the keyword matcher is one of the keyword
table names. -/
theorem matchKeywords_mem (kwTable : List (String × List String)) (text : String)
    (c : String) (h : matchKeywords kwTable text = some c) :
    c ∈ kwTable.map (fun x => x.1) := by
  simp only [matchKeywords] at h
  by_cases h0 : 0 < (matchKeywordsAux (pyLower text) kwTable none 0).2
  · rw [if_pos h0] at h
    rcases matchKeywordsAux_fst_mem _ _ _ _ _ h with h1 | h1
    · cases h1
    · exact h1
  · rw [if_neg h0] at h
    cases h

/-- Splitting the scoring loop over a concatenation of tables. -/
theorem matchKeywordsAux_append (tl : String) (l1 l2 : List (String × List String)) :
    ∀ (best : Option String) (m : Nat),
      matchKeywordsAux tl (l1 ++ l2) best m =
        matchKeywordsAux tl l2 (matchKeywordsAux tl l1 best m).1
          (matchKeywordsAux tl l1 best m).2 := by
  induction l1 with
  | nil =>
    intro best m
    simp [matchKeywordsAux]
  | cons hd rest ih =>
    intro best m
    obtain ⟨cat, kws⟩ := hd
    simp only [List.cons_append, matchKeywordsAux]
    by_cases hc : m < countMatches kws tl
    · rw [if_pos hc, if_pos hc]
      exact ih _ _
    · rw [if_neg hc, if_neg hc]
      exact ih _ _

/-- The scoring loop leaves the accumulator unchanged when no scanned
category beats the incoming count. -/
theorem matchKeywordsAux_const (tl : String) :
    ∀ (l : List (String × List String)) (best : Option String) (m : Nat),
      (∀ x ∈ l, countMatches x.2 tl ≤ m) →
      matchKeywordsAux tl l best m = (best, m) := by
  intro l
  induction l with
  | nil =>
    intro best m _
    simp [matchKeywordsAux]
  | cons hd rest ih =>
    intro best m hle
    obtain ⟨cat, kws⟩ := hd
    simp only [matchKeywordsAux]
    have h1 : ¬ m < countMatches kws tl :=
      not_lt.mpr (hle (cat, kws) (by simp))
    rw [if_neg h1]
    exact ih best m (fun x hx => hle x (by simp [hx]))

/-- The running maximum of the scoring loop stays below any strict
bound on the incoming count and all scanned counts. -/
theorem matchKeywordsAux_snd_lt (tl : String) (s : Nat) :
    ∀ (l : List (String × List String)) (best : Option String) (m : Nat),
      m < s → (∀ x ∈ l, countMatches x.2 tl < s) →
      (matchKeywordsAux tl l best m).2 < s := by
  intro l
  induction l with
  | nil =>
    intro best m hm _
    simpa [matchKeywordsAux] using hm
  | cons hd rest ih =>
    intro best m hm hl
    obtain ⟨cat, kws⟩ := hd
    simp only [matchKeywordsAux]
    by_cases hc : m < countMatches kws tl
    · rw [if_pos hc]
      exact ih _ _ (hl (cat, kws) (by simp)) (fun x hx => hl x (by simp [hx]))
    · rw [if_neg hc]
      exact ih _ _ hm (fun x hx => hl x (by simp [hx]))

/-- C10: map_category always returns a nonempty category that is a key
of the taxonomy (of its categories or keywords section) or the sentinel
Sonstiges; the embedding is a total function, reflecting that the source
raises no exception on any input. -/
theorem C10_category_in_taxonomy (cm : CategoryMapperData) (name desc : String)
    (hint : Option String) :
    (map_category cm name desc hint).1 ≠ "" ∧
    ((map_category cm name desc hint).1 ∈ catNames cm ∨
      (map_category cm name desc hint).1 ∈ kwNames cm ∨
      (map_category cm name desc hint).1 = "Sonstiges") := by
  rcases hint with _ | h
  · rcases hmk : matchKeywords cm.keywords (name ++ " " ++ desc) with _ | c
    · have hres : (map_category cm name desc none).1 = "Sonstiges" := by
        simp [map_category, hmk]
      rw [hres]
      exact ⟨by decide, Or.inr (Or.inr rfl)⟩
    · by_cases hce : c.isEmpty
      · have hres : (map_category cm name desc none).1 = "Sonstiges" := by
          simp [map_category, hmk, hce]
        rw [hres]
        exact ⟨by decide, Or.inr (Or.inr rfl)⟩
      · have hres : (map_category cm name desc none).1 = c := by
          simp [map_category, hmk, hce]
        rw [hres]
        exact ⟨by simpa [String.isEmpty_iff] using hce,
          Or.inr (Or.inl (matchKeywords_mem _ _ _ hmk))⟩
  · by_cases hh : h.isEmpty
    · rcases hmk : matchKeywords cm.keywords (name ++ " " ++ desc) with _ | c
      · have hres : (map_category cm name desc (some h)).1 = "Sonstiges" := by
          simp [map_category, hh, hmk]
        rw [hres]
        exact ⟨by decide, Or.inr (Or.inr rfl)⟩
      · by_cases hce : c.isEmpty
        · have hres : (map_category cm name desc (some h)).1 = "Sonstiges" := by
            simp [map_category, hh, hmk, hce]
          rw [hres]
          exact ⟨by decide, Or.inr (Or.inr rfl)⟩
        · have hres : (map_category cm name desc (some h)).1 = c := by
            simp [map_category, hh, hmk, hce]
          rw [hres]
          exact ⟨by simpa [String.isEmpty_iff] using hce,
            Or.inr (Or.inl (matchKeywords_mem _ _ _ hmk))⟩
    · rcases hfind : hintMatch (catNames cm) h with _ | cat
      · rcases hmk : matchKeywords cm.keywords (name ++ " " ++ desc) with _ | c
        · have hres : (map_category cm name desc (some h)).1 = "Sonstiges" := by
            simp [map_category, hh, hfind, hmk]
          rw [hres]
          exact ⟨by decide, Or.inr (Or.inr rfl)⟩
        · by_cases hce : c.isEmpty
          · have hres : (map_category cm name desc (some h)).1 = "Sonstiges" := by
              simp [map_category, hh, hfind, hmk, hce]
            rw [hres]
            exact ⟨by decide, Or.inr (Or.inr rfl)⟩
          · have hres : (map_category cm name desc (some h)).1 = c := by
              simp [map_category, hh, hfind, hmk, hce]
            rw [hres]
            exact ⟨by simpa [String.isEmpty_iff] using hce,
              Or.inr (Or.inl (matchKeywords_mem _ _ _ hmk))⟩
      · by_cases hcatE : cat.isEmpty
        · rcases hmk : matchKeywords cm.keywords (name ++ " " ++ desc) with _ | c
          · have hres : (map_category cm name desc (some h)).1 = "Sonstiges" := by
              simp [map_category, hh, hfind, hmk, hcatE]
            rw [hres]
            exact ⟨by decide, Or.inr (Or.inr rfl)⟩
          · by_cases hce : c.isEmpty
            · have hres : (map_category cm name desc (some h)).1 = "Sonstiges" := by
                simp [map_category, hh, hfind, hmk, hcatE, hce]
              rw [hres]
              exact ⟨by decide, Or.inr (Or.inr rfl)⟩
            · have hres : (map_category cm name desc (some h)).1 = c := by
                simp [map_category, hh, hfind, hmk, hcatE, hce]
              rw [hres]
              exact ⟨by simpa [String.isEmpty_iff] using hce,
                Or.inr (Or.inl (matchKeywords_mem _ _ _ hmk))⟩
        · have hres : (map_category cm name desc (some h)).1 = cat := by
            simp [map_category, hh, hfind, hcatE]
          rw [hres]
          exact ⟨by simpa [String.isEmpty_iff] using hcatE,
            Or.inl (List.mem_of_find?_eq_some hfind)⟩

/-- C6 counterexample data: a taxonomy with one category and a keywords
section for another. -/
def cmC6 : CategoryMapperData :=
  { categories := [("Elektronik", [("Computer", ["laptop"])])],
    keywords := [("Möbel", ["sofa"])] }

/-- C6 counterexample: the empty hint case-insensitively substring-
matches the taxonomy name Elektronik (the empty string occurs in every
string), yet the mapper treats the empty hint as absent, runs keyword
scoring and returns Möbel. -/
theorem C6_counterexample :
    hintPred "" "Elektronik" = true ∧
    (map_category cmC6 "sofa" "" (some "")).1 = "Möbel" ∧
    ("Möbel" : String) ≠ "Elektronik" := by
  refine ⟨rfl, rfl, by decide⟩

/-- C6 amended: a Python-truthy (nonempty) hint whose first taxonomy
match is a nonempty category name selects that category, for every
possible keywords section, so keyword scoring is not used; an empty
hint is treated as absent, and a matched empty category name falls
through to keyword scoring. -/
theorem C6_hint_override (cm : CategoryMapperData) (name desc h cat : String)
    (hh : h ≠ "") (hfind : hintMatch (catNames cm) h = some cat) (hcat : cat ≠ "") :
    ∀ kws : List (String × List String),
      (map_category { categories := cm.categories, keywords := kws } name desc
          (some h)).1 = cat := by
  intro kws
  have hh2 : h.isEmpty = false := strIsEmpty_false h hh
  have hcat2 : cat.isEmpty = false := strIsEmpty_false cat hcat
  have hnames : catNames { categories := cm.categories, keywords := kws } =
      catNames cm := rfl
  simp [map_category, hh2, hnames, hfind, hcat2]

/-- C6 witness: the amended rule applied at a concrete nonempty hint
matching the taxonomy name Elektronik. -/
theorem C6_hint_override_witness :
    (map_category { categories := cmC6.categories, keywords := cmC6.keywords }
        "sofa" "" (some "elektro")).1 = "Elektronik" :=
  C6_hint_override cmC6 "sofa" "" "elektro" "Elektronik" (by decide) rfl
    (by decide) cmC6.keywords

/-- C5 counterexample data: a keywords section whose only keyword
carries an uppercase letter. -/
def cmC5 : CategoryMapperData :=
  { categories := [], keywords := [("Fahrzeuge", ["Auto"])] }

/-- C5 counterexample: the keyword Auto occurs in the combined text
Auto (even verbatim, hence also case-insensitively), yet the mapper
returns the sentinel, because the source lowercases only the text and
compares the keyword verbatim, so an uppercase keyword never
matches. -/
theorem C5_counterexample :
    ciSubstr "Auto" ("Auto" ++ " " ++ "") = true ∧
    (map_category cmC5 "Auto" "" none).1 = "Sonstiges" ∧
    ("Sonstiges" : String) ≠ "Fahrzeuge" := by
  refine ⟨rfl, rfl, by decide⟩

/-- C5 amended: keyword scoring counts how many of a category's
keywords occur verbatim in the lowercased combined text (so matching is
case-insensitive only in the text, not in the keyword). Without a hint,
the mapper returns the first category, in table order, whose positive
count is strictly above every earlier count and not exceeded by any
later one, provided that category name is nonempty; when every count is
zero it returns the sentinel Sonstiges. -/
theorem C5_keyword_scoring (cm : CategoryMapperData) (name desc : String) :
    (∀ (pre post : List (String × List String)) (A : String) (ksA : List String),
      cm.keywords = pre ++ (A, ksA) :: post →
      0 < countMatches ksA (pyLower (name ++ " " ++ desc)) →
      (∀ x ∈ pre,
        countMatches x.2 (pyLower (name ++ " " ++ desc)) <
          countMatches ksA (pyLower (name ++ " " ++ desc))) →
      (∀ x ∈ post,
        countMatches x.2 (pyLower (name ++ " " ++ desc)) ≤
          countMatches ksA (pyLower (name ++ " " ++ desc))) →
      A ≠ "" →
      (map_category cm name desc none).1 = A) ∧
    ((∀ x ∈ cm.keywords, countMatches x.2 (pyLower (name ++ " " ++ desc)) = 0) →
      (map_category cm name desc none).1 = "Sonstiges") := by
  constructor
  · intro pre post A ksA hkw hA hpre hpost hAne
    have hmk : matchKeywords cm.keywords (name ++ " " ++ desc) = some A := by
      simp only [matchKeywords]
      rw [hkw, matchKeywordsAux_append]
      have hrlt : (matchKeywordsAux (pyLower (name ++ " " ++ desc)) pre none 0).2 <
          countMatches ksA (pyLower (name ++ " " ++ desc)) :=
        matchKeywordsAux_snd_lt _ _ pre none 0 hA hpre
      simp only [matchKeywordsAux]
      rw [if_pos hrlt]
      rw [matchKeywordsAux_const _ post _ _ hpost]
      rw [if_pos hA]
    have hAe : A.isEmpty = false := strIsEmpty_false A hAne
    simp [map_category, hmk, hAe]
  · intro hz
    have hmk : matchKeywords cm.keywords (name ++ " " ++ desc) = none := by
      simp only [matchKeywords]
      rw [matchKeywordsAux_const _ cm.keywords none 0
        (fun x hx => le_of_eq (hz x hx))]
      simp
    simp [map_category, hmk]

/-- C5 witness data: two categories with lowercase keywords. -/
def cmC5W : CategoryMapperData :=
  { categories := [],
    keywords := [("Elektronik", ["laptop", "computer"]), ("Möbel", ["sofa"])] }

/-- C5 witness: a text matching two Elektronik keywords and no Möbel
keyword maps to Elektronik. -/
theorem C5_keyword_scoring_witness :
    (map_category cmC5W "laptop computer" "" none).1 = "Elektronik" :=
  (C5_keyword_scoring cmC5W "laptop computer" "").1 [] [("Möbel", ["sofa"])]
    "Elektronik" ["laptop", "computer"] rfl (by decide) (by decide) (by decide)
    (by decide)
